import Mathlib

/-!
Verification development for the PreviewFlow Preview Build & Lifecycle
Orchestrator.  The definitions below are a shallow embedding of the
backend source: `dockerService.js` (port allocation, container naming,
the `buildPreview` flow), `prHandlers.js` (PR open/sync and close
handlers) and `previewActions.js` (the rebuild and delete routes).
External collaborators (the record store, the OS socket layer, docker,
git clone, the socket.io transport) are abstracted as oracles carried in
environment records; one execution trace fixes their answers.
-/

namespace PreviewFlow

/-- Preview lifecycle status, the four string values used by the backend:
`building`, `live`, `error`, `deleted`. -/
inductive Status where
  | building
  | live
  | error
  | deleted
deriving DecidableEq, Repr

/-- A project record, the fields of `project` used by the orchestrator
(`id`, `repoOwner`, `repoName`, `userId`). -/
structure Project where
  id : String
  repoOwner : String
  repoName : String
  userId : String
deriving DecidableEq, Repr

/-- A preview record: the persisted fields read and written by the
orchestrator (`prisma.preview`). Timestamps are abstract instants. -/
structure Preview where
  prNumber : Nat
  status : Status
  url : Option String
  port : Option Nat
  containerName : Option String
  buildNumber : Nat
  buildStartedAt : Option Nat
  buildCompletedAt : Option Nat
  buildLogs : String
deriving DecidableEq, Repr

/-! ### Decimal rendering of numbers (JS template-string interpolation) -/

/-- Fuel-driven accumulator loop producing the decimal digits of `n`,
most significant first, in front of `acc`. -/
def natToCharsCore : Nat → Nat → List Char → List Char
  | 0, _, acc => acc
  | fuel + 1, n, acc =>
    if n < 10 then Nat.digitChar n :: acc
    else natToCharsCore fuel (n / 10) (Nat.digitChar (n % 10) :: acc)

/-- Decimal digit list of `n`, as JS renders a number into a string. -/
def natToChars (n : Nat) : List Char :=
  natToCharsCore (n + 1) n []

/-- Decimal string of `n`. -/
def natStr (n : Nat) : String :=
  String.mk (natToChars n)

/-! ### Sanitization (`.toLowerCase().replace(/[^a-z0-9\-]/g, "-")`) -/

/-- Whether `c` is kept by the regex class `[a-z0-9-]`. -/
def isAllowedChar (c : Char) : Bool :=
  ('a' ≤ c && c ≤ 'z') || ('0' ≤ c && c ≤ '9') || c == '-'

/-- Lower-case one character, then replace it by a hyphen unless it is in
`[a-z0-9-]`. -/
def sanitizeChar (c : Char) : Char :=
  let lc := c.toLower
  if isAllowedChar lc then lc else '-'

/-- `s.toLowerCase().replace(/[^a-z0-9\-]/g, "-")`, character-wise. -/
def sanitize (s : String) : String :=
  String.mk (s.data.map sanitizeChar)

/-- `s.slice(0, n)` — the first `n` characters of `s`. -/
def sliceTo (s : String) (n : Nat) : String :=
  String.mk (s.data.take n)

/-- `generateContainerName` from `dockerService.js`:
`preview-p<first 8 chars of project.id>-pr<prNumber>-b<buildNumber>`,
sanitized to lower-case `[a-z0-9-]`. -/
def generateContainerName (project : Project) (prNumber buildNumber : Nat) : String :=
  sanitize ("preview-p" ++ sliceTo project.id 8 ++ "-pr" ++ natStr prNumber
    ++ "-b" ++ natStr buildNumber)

/-- The image base name `<repoOwner>-<repoName>-pr-<prNumber>`, sanitized,
used as docker image tag in `buildPreview`. -/
def imageBaseName (project : Project) (prNumber : Nat) : String :=
  sanitize (project.repoOwner ++ "-" ++ project.repoName ++ "-pr-" ++ natStr prNumber)

/-! ### Port allocation (`portReservedInDB`, `isPortFree`, `findAvailablePort`) -/

/-- `portReservedInDB` from `dockerService.js`: the prisma query
`findFirst({ where: { port, status: { not: "deleted" } } })` coerced to a
boolean — some preview in the store snapshot holds `port` with a
non-deleted status. -/
def portReservedInDB (db : List Preview) (port : Nat) : Bool :=
  db.any (fun pv => pv.port == some port && !(pv.status == Status.deleted))

/-- The scan loop of `findAvailablePort`: starting at `port`, with
`fuel` remaining candidates, skip a candidate if the first store query
reserves it, or the OS bind fails (`isPortFree` is the oracle `osFree`),
or the second store query reserves it; return the first survivor. -/
def scanPorts (resFst resSnd osFree : Nat → Bool) : Nat → Nat → Option Nat
  | _, 0 => none
  | port, fuel + 1 =>
    if resFst port then scanPorts resFst resSnd osFree (port + 1) fuel
    else if !(osFree port) then scanPorts resFst resSnd osFree (port + 1) fuel
    else if resSnd port then scanPorts resFst resSnd osFree (port + 1) fuel
    else some port

/-- `findAvailablePort(minPort, maxPort)` from `dockerService.js`: scan
the inclusive range ascending; `db1` and `db2` are the record-store
snapshots answering the first and the repeated store query; `none`
models the thrown port-exhaustion error. -/
def findAvailablePort (db1 db2 : List Preview) (osFree : Nat → Bool)
    (minPort maxPort : Nat) : Option Nat :=
  scanPorts (portReservedInDB db1) (portReservedInDB db2) osFree minPort
    (maxPort + 1 - minPort)

/-- The message of the error thrown when `findAvailablePort` exhausts its
range (the text names 4000-4999 regardless of the arguments). -/
def portExhaustedMsg : String :=
  "No free ports available in configured range (4000-4999)"

/-- All three checks of one loop iteration of `findAvailablePort`, as a
predicate on the candidate port. -/
def portPasses (db1 db2 : List Preview) (osFree : Nat → Bool) (q : Nat) : Bool :=
  !portReservedInDB db1 q && osFree q && !portReservedInDB db2 q

/-! ### The build environment and the `buildPreview` flow -/

/-- One execution trace's external world for `buildPreview`: the store
snapshots seen by the port queries, the OS bind oracle (`isPortFree`),
the exit codes and captured output of the `docker build` and `docker
run` invocations, the resolved dockerfile path, the two `new Date()`
instants, and whether the socket.io emitter throws. -/
structure BuildEnv where
  dbFst : List Preview
  dbSnd : List Preview
  osFree : Nat → Bool
  imageBuildExit : Nat
  imageBuildOut : String
  runExit : Nat
  runOut : String
  dockerfile : String
  startTime : Nat
  endTime : Nat
  emitOk : Bool

/-- Outcome of `buildPreview`: the returned url, or the thrown error's
message. -/
inductive BuildResult where
  | ok (url : String)
  | err (msg : String)
deriving DecidableEq, Repr

/-- One socket.io emission: `getIO().to(...).emit(...)` either succeeds
or throws. -/
def emitEvent (emitOk : Bool) : Except String Unit :=
  if emitOk then Except.ok () else Except.error "emit failed"

/-- An emission wrapped in `try { ... } catch { }`: both outcomes are
swallowed. -/
def emitGuarded (emitOk : Bool) : Unit :=
  match emitEvent emitOk with
  | Except.ok _ => ()
  | Except.error _ => ()

/-- The first update of `buildPreview`: set `status: "building"` and
`buildStartedAt`. -/
def markBuilding (env : BuildEnv) (pv : Preview) : Preview :=
  { pv with status := Status.building, buildStartedAt := some env.startTime }

/-- `const nextBuildNumber = (preview.buildNumber || 1)` — JS falsy
coercion of the stored counter. -/
def nextBuildNumberOf (pv : Preview) : Nat :=
  if pv.buildNumber = 0 then 1 else pv.buildNumber

/-- The port step of `buildPreview`: with no recorded port, allocate
from `findAvailablePort(5000, 5999)` and persist it; with a recorded
port, revalidate with `isPortFree` and reuse it, else fall back to
`findAvailablePort(4000, 4999)` and persist that. -/
def assignPort (env : BuildEnv) (pv : Preview) : Except String (Preview × Nat) :=
  match pv.port with
  | none =>
    match findAvailablePort env.dbFst env.dbSnd env.osFree 5000 5999 with
    | some p => Except.ok ({ pv with port := some p }, p)
    | none => Except.error portExhaustedMsg
  | some p =>
    if env.osFree p then Except.ok (pv, p)
    else
      match findAvailablePort env.dbFst env.dbSnd env.osFree 4000 4999 with
      | some q => Except.ok ({ pv with port := some q }, q)
      | none => Except.error portExhaustedMsg

/-- `run(command, onData)`: append the process's streamed output to the
log buffer; exit code 0 resolves, a non-zero code rejects with
`Command failed with exit code <code>`. -/
def runCmd (exitCode : Nat) (output logs : String) : String × Option String :=
  let logs2 := logs ++ output
  if exitCode = 0 then (logs2, none)
  else (logs2, some ("Command failed with exit code " ++ natStr exitCode))

/-- The catch block of `buildPreview`: set `status: "error"`, append the
failure detail to the accumulated logs, set `buildCompletedAt`, and free
the port reservation (`port: null`). -/
def errorUpdate (env : BuildEnv) (pv : Preview) (logs msg : String) : Preview :=
  { pv with
      status := Status.error,
      buildLogs := logs ++ "\n\nERROR:\n" ++ msg,
      buildCompletedAt := some env.endTime,
      port := none }

/-- The `docker build` command line pushed to the log buffer before the
image build runs. -/
def buildCmdLine (env : BuildEnv) (imageName repoPath : String) : String :=
  "\n> docker build -t " ++ imageName ++ " -f \"" ++ env.dockerfile
    ++ "\" \"" ++ repoPath ++ "\"\n"

/-- The `docker run` command line pushed to the log buffer before the
container starts. -/
def runCmdLine (containerName : String) (assignedPort : Nat) (imageName : String) : String :=
  "\n> docker run -d --name " ++ containerName ++ " -p "
    ++ natStr assignedPort ++ ":80 " ++ imageName ++ "\n"

/-- The image-build and container-run steps of `buildPreview`, entered
after the port and container name are persisted: push the command line,
run `docker build`, push the run command line, run `docker run`, and on
success persist `status: "live"`, the url, the logs and
`buildCompletedAt`; a failure at either step takes the catch block. -/
def buildSteps (env : BuildEnv) (imageName containerName repoPath : String)
    (pv3 : Preview) (assignedPort : Nat) : Preview × BuildResult :=
  let logs0 := buildCmdLine env imageName repoPath
  let _ := emitGuarded env.emitOk
  match runCmd env.imageBuildExit env.imageBuildOut logs0 with
  | (logs1, some msg) => (errorUpdate env pv3 logs1 msg, BuildResult.err msg)
  | (logs1, none) =>
    let logs2 := logs1 ++ runCmdLine containerName assignedPort imageName
    let _ := emitGuarded env.emitOk
    match runCmd env.runExit env.runOut logs2 with
    | (logs3, some msg) => (errorUpdate env pv3 logs3 msg, BuildResult.err msg)
    | (logs3, none) =>
      let url := "http://localhost:" ++ natStr assignedPort
      let _ := emitGuarded env.emitOk
      ({ pv3 with
          status := Status.live,
          url := some url,
          buildLogs := logs3,
          buildCompletedAt := some env.endTime }, BuildResult.ok url)

/-- `buildPreview` from `dockerService.js` (the safe flow): mark the
preview building, compute the container name from the current (falsy
coerced) `buildNumber`, remove any stale container (external, no record
effect), then inside the try: assign or revalidate the port, persist
`containerName` and increment `buildNumber`, and run the build steps.
A port failure before the increment takes the catch block with the logs
accumulated so far (empty at that point). -/
def buildPreview (env : BuildEnv) (project : Project) (prNumber : Nat)
    (repoPath : String) (pv : Preview) : Preview × BuildResult :=
  let pv1 := markBuilding env pv
  let containerName := generateContainerName project prNumber (nextBuildNumberOf pv1)
  match assignPort env pv1 with
  | Except.error msg => (errorUpdate env pv1 "" msg, BuildResult.err msg)
  | Except.ok (pv2, assignedPort) =>
    let pv3 := { pv2 with
      containerName := some containerName,
      buildNumber := pv2.buildNumber + 1 }
    buildSteps env (imageBaseName project prNumber) containerName repoPath pv3 assignedPort

/-! ### PR event handlers (`prHandlers.js`) -/

/-- Environment of a PR-open/sync handling: the build environment plus
the outcome of the clone collaborator and the path it produces. -/
structure SyncEnv where
  build : BuildEnv
  cloneOk : Bool
  repoPath : String

/-- Modelled from the spec: the record store's create defaults for a new
Preview — the prisma schema is not under src/; per §3 of the spec,
`buildNumber` starts at 1 and `url`, `port`, `containerName` and the
timestamps are empty; the `create` call itself passes
`status: "building"` explicitly. -/
def createdPreview (prNumber : Nat) : Preview :=
  { prNumber := prNumber
    status := Status.building
    url := none
    port := none
    containerName := none
    buildNumber := 1
    buildStartedAt := none
    buildCompletedAt := none
    buildLogs := "" }

/-- The upsert of `handlePROpenOrSync`: an existing preview for the
(project, prNumber) pair — of any status, deleted included — gets
`status: "building"`; otherwise a fresh record is created. -/
def upsertBuilding (prNumber : Nat) (existing : Option Preview) : Preview :=
  match existing with
  | some pv => { pv with status := Status.building }
  | none => createdPreview prNumber

/-- `handlePROpenOrSync` from `prHandlers.js`: upsert to building, emit
a status update (NOT wrapped in try/catch — a throwing emitter aborts
the handler), clone the repo (`cloneRepo` is not under src/; modelled
from the spec as `clone -> localPath | CloneFailed`, and a failure
propagates because the call sits before the try block), then run
`buildPreview`; the try/catch around `buildPreview` removes the working
tree and emits a final status update, again unguarded, rethrowing the
build error. Returns the persisted preview and the handler's outcome. -/
def handlePROpenOrSync (env : SyncEnv) (project : Project) (prNumber : Nat)
    (existing : Option Preview) : Preview × Except String Unit :=
  let pv0 := upsertBuilding prNumber existing
  match emitEvent env.build.emitOk with
  | Except.error e => (pv0, Except.error e)
  | Except.ok _ =>
    if !env.cloneOk then (pv0, Except.error "CloneFailed")
    else
      match buildPreview env.build project prNumber env.repoPath pv0 with
      | (pv1, BuildResult.ok _) =>
        match emitEvent env.build.emitOk with
        | Except.ok _ => (pv1, Except.ok ())
        | Except.error e => (pv1, Except.error e)
      | (pv1, BuildResult.err msg) =>
        match emitEvent env.build.emitOk with
        | Except.ok _ => (pv1, Except.error msg)
        | Except.error e => (pv1, Except.error e)

/-- `handlePRClosed` from `prHandlers.js`: if the preview exists,
best-effort remove its container (no record effect), then update the
record to `status: "deleted", url: null` — `port` and `containerName`
are NOT touched — and emit (unguarded). -/
def handlePRClosed (emitOk : Bool) (existing : Option Preview) :
    Option Preview × Except String Unit :=
  match existing with
  | none => (none, Except.ok ())
  | some pv =>
    let pv1 := { pv with status := Status.deleted, url := none }
    match emitEvent emitOk with
    | Except.ok _ => (some pv1, Except.ok ())
    | Except.error e => (some pv1, Except.error e)

/-! ### HTTP routes (`previewActions.js`) -/

/-- The HTTP responses of the rebuild and delete routes. -/
inductive RouteResult where
  | okJson (url : String)
  | okDelete
  | notFound
  | forbidden
  | buildFailed
  | serverError (msg : String)
deriving DecidableEq, Repr

/-- Environment of a route invocation: the build environment, the clone
outcome, and the route-level `new Date()` instants. -/
structure RouteEnv where
  build : BuildEnv
  cloneOk : Bool
  repoPath : String
  routeStartTime : Nat
  errTime : Nat
  deleteTime : Nat

/-- `POST /preview/:id/rebuild` from `previewActions.js`: 404 when the
preview is not found, 403 when the authenticated user does not own the
project; otherwise — with no check of the preview's status — remove the
old container, persist `status: "building", url: null, buildStartedAt,
buildCompletedAt: null`, emit (unguarded, caught only by the outer
catch-all), clone, run `buildPreview`; on build success emit the final
snapshot and answer the url, on build failure persist `status: "error",
buildCompletedAt, url: null, containerName: null` and answer 500. -/
def rebuildRoute (env : RouteEnv) (found : Option (Preview × Project))
    (userId : String) : Option Preview × RouteResult :=
  match found with
  | none => (none, RouteResult.notFound)
  | some (pv, project) =>
    if project.userId ≠ userId then (some pv, RouteResult.forbidden)
    else
      let pv1 := { pv with
        status := Status.building,
        url := none,
        buildStartedAt := some env.routeStartTime,
        buildCompletedAt := none }
      match emitEvent env.build.emitOk with
      | Except.error _ => (some pv1, RouteResult.serverError "Unexpected error")
      | Except.ok _ =>
        if !env.cloneOk then (some pv1, RouteResult.serverError "Unexpected error")
        else
          match buildPreview env.build project pv.prNumber env.repoPath pv1 with
          | (pv2, BuildResult.ok url) =>
            match emitEvent env.build.emitOk with
            | Except.ok _ => (some pv2, RouteResult.okJson url)
            | Except.error _ =>
              let pv3 := { pv2 with
                status := Status.error,
                buildCompletedAt := some env.errTime,
                url := none,
                containerName := none }
              (some pv3, RouteResult.serverError "Unexpected error")
          | (pv2, BuildResult.err _) =>
            let pv3 := { pv2 with
              status := Status.error,
              buildCompletedAt := some env.errTime,
              url := none,
              containerName := none }
            match emitEvent env.build.emitOk with
            | Except.ok _ => (some pv3, RouteResult.buildFailed)
            | Except.error _ => (some pv3, RouteResult.serverError "Unexpected error")

/-- `POST /preview/:id/delete` from `previewActions.js`: 404 / 403
checks, best-effort container removal, then persist `status: "deleted",
url: null, containerName: null, buildCompletedAt` — `port` is NOT
cleared — and emit the final snapshot (unguarded; a throwing emitter
reaches the catch-all and answers 500 after the update is persisted). -/
def deleteRoute (env : RouteEnv) (found : Option (Preview × Project))
    (userId : String) : Option Preview × RouteResult :=
  match found with
  | none => (none, RouteResult.notFound)
  | some (pv, project) =>
    if project.userId ≠ userId then (some pv, RouteResult.forbidden)
    else
      let pv1 := { pv with
        status := Status.deleted,
        url := none,
        containerName := none,
        buildCompletedAt := some env.deleteTime }
      match emitEvent env.build.emitOk with
      | Except.ok _ => (some pv1, RouteResult.okDelete)
      | Except.error _ => (some pv1, RouteResult.serverError "Delete failed")

/-! ### Helper definitions for the proofs -/

/-- Numeric value of a decimal digit character. -/
def digitVal (c : Char) : Nat := c.toNat - 48

/-- Value of a most-significant-first decimal digit list. -/
def charsVal (l : List Char) : Nat :=
  l.foldl (fun a c => 10 * a + digitVal c) 0

/-- The three checks of one scan iteration, over generic oracles. -/
def scanPass (resFst resSnd osFree : Nat → Bool) (q : Nat) : Bool :=
  !resFst q && osFree q && !resSnd q

/-- The record persisted by `buildPreview` once the port step has
succeeded with port `p`: building, port reserved, container name from
the pre-increment counter, counter incremented. -/
def afterIncrement (env : BuildEnv) (project : Project) (prNumber : Nat)
    (pv : Preview) (p : Nat) : Preview :=
  { markBuilding env pv with
      port := some p,
      containerName := some (generateContainerName project prNumber (nextBuildNumberOf pv)),
      buildNumber := pv.buildNumber + 1 }

/-! ### Concrete fixtures for witnesses and counterexamples -/

/-- A sample project record. -/
def projW : Project :=
  { id := "ckv123abcdef", repoOwner := "Abhijat05", repoName := "PreviewFlow",
    userId := "user-1" }

/-- An external world in which every step succeeds: empty record-store
snapshots, every port OS-free, both docker invocations exit 0, the
emitter works. -/
def envAllOk : BuildEnv :=
  { dbFst := [], dbSnd := [], osFree := fun _ => true,
    imageBuildExit := 0, imageBuildOut := "image built\n",
    runExit := 0, runOut := "c0ffee\n",
    dockerfile := "deploy-templates/vite.Dockerfile",
    startTime := 100, endTime := 200, emitOk := true }

/-- A world in which the OS reports every port as bound, so any port
allocation or revalidation fails. -/
def envNoPorts : BuildEnv :=
  { envAllOk with osFree := fun _ => false }

/-- A world in which the `docker build` step fails with exit code 1. -/
def envBuildFails : BuildEnv :=
  { envAllOk with imageBuildExit := 1 }

/-- A world in which the socket.io emitter throws. -/
def envEmitThrows : BuildEnv :=
  { envAllOk with emitOk := false }

/-- A live preview holding port 5000, as left by a successful build. -/
def pvLive : Preview :=
  { prNumber := 7, status := Status.live, url := some "http://localhost:5000",
    port := some 5000, containerName := some "preview-pckv123ab-pr7-b1",
    buildNumber := 2, buildStartedAt := some 10, buildCompletedAt := some 20,
    buildLogs := "old logs" }

/-- A deleted preview (as the delete route leaves it: port kept). -/
def pvDeleted : Preview :=
  { pvLive with status := Status.deleted, url := none, containerName := none }

/-- A live preview holding port 6000, outside both allocation ranges. -/
def pvHeld6000 : Preview :=
  { pvLive with port := some 6000 }

/-- A world in which port 6000 is OS-bound and everything else is free. -/
def envPort6000Bound : BuildEnv :=
  { envAllOk with osFree := fun q => !(q == 6000) }

/-- The store snapshot of the spec's allocation scenario: one live
preview holds port 5000. -/
def dbScenario : List Preview :=
  [{ pvLive with port := some 5000 }]

/-- The OS oracle of the spec's allocation scenario: port 5001 is bound
by an unrelated process, everything else is free. -/
def osScenario : Nat → Bool :=
  fun q => !(q == 5001)

/-- A PR-sync environment in which everything succeeds. -/
def syncAllOk : SyncEnv :=
  { build := envAllOk, cloneOk := true, repoPath := "/tmp/clone" }

/-- A PR-sync environment in which the clone step fails. -/
def syncCloneFails : SyncEnv :=
  { syncAllOk with cloneOk := false }

/-- A PR-sync environment identical to `syncAllOk` except that the
emitter throws. -/
def syncEmitThrows : SyncEnv :=
  { syncAllOk with build := envEmitThrows }

/-- A route environment in which everything succeeds. -/
def routeAllOk : RouteEnv :=
  { build := envAllOk, cloneOk := true, repoPath := "/tmp/clone",
    routeStartTime := 90, errTime := 210, deleteTime := 300 }

lemma natToCharsCore_append (fuel : Nat) :
    ∀ n acc, natToCharsCore fuel n acc = natToCharsCore fuel n [] ++ acc := by
  induction fuel with
  | zero => intro n acc; simp [natToCharsCore]
  | succ fuel ih =>
    intro n acc
    by_cases h : n < 10
    · simp [natToCharsCore, h]
    · simp only [natToCharsCore, if_neg h]
      rw [ih (n / 10) (Nat.digitChar (n % 10) :: acc),
        ih (n / 10) [Nat.digitChar (n % 10)]]
      simp

lemma natToCharsCore_fuel :
    ∀ f1 f2 n acc, n < f1 → n < f2 →
      natToCharsCore f1 n acc = natToCharsCore f2 n acc := by
  intro f1
  induction f1 with
  | zero => intro f2 n acc h1 h2; omega
  | succ f1 ih =>
    intro f2 n acc h1 h2
    match f2 with
    | 0 => omega
    | g2 + 1 =>
      by_cases h : n < 10
      · simp [natToCharsCore, h]
      · have hdiv : n / 10 < n := Nat.div_lt_self (by omega) (by omega)
        simp only [natToCharsCore, if_neg h]
        exact ih g2 (n / 10) _ (by omega) (by omega)

lemma charsVal_append_one (l : List Char) (c : Char) :
    charsVal (l ++ [c]) = 10 * charsVal l + digitVal c := by
  simp [charsVal, List.foldl_append]

lemma digitVal_digitChar (d : Nat) (h : d < 10) :
    digitVal (Nat.digitChar d) = d := by
  interval_cases d <;> decide

lemma charsVal_natToChars (n : Nat) : charsVal (natToChars n) = n := by
  induction n using Nat.strong_induction_on with
  | _ n ih =>
    by_cases h : n < 10
    · simp [natToChars, natToCharsCore, h, charsVal, digitVal_digitChar n h]
    · have hdiv : n / 10 < n := Nat.div_lt_self (by omega) (by omega)
      have hstep : natToChars n
          = natToChars (n / 10) ++ [Nat.digitChar (n % 10)] := by
        show natToCharsCore (n + 1) n [] = _
        simp only [natToCharsCore, if_neg h]
        rw [natToCharsCore_append n (n / 10) [Nat.digitChar (n % 10)]]
        rw [natToCharsCore_fuel n (n / 10 + 1) (n / 10) [] (by omega) (by omega)]
        rfl
      rw [hstep, charsVal_append_one, ih (n / 10) hdiv,
        digitVal_digitChar (n % 10) (by omega)]
      omega

lemma natToChars_injective {m n : Nat} (h : natToChars m = natToChars n) :
    m = n := by
  have hv := congrArg charsVal h
  rwa [charsVal_natToChars, charsVal_natToChars] at hv

lemma sanitizeChar_digitChar (d : Nat) (h : d < 10) :
    sanitizeChar (Nat.digitChar d) = Nat.digitChar d := by
  interval_cases d <;> decide

lemma map_sanitizeChar_natToCharsCore (fuel : Nat) :
    ∀ n acc, (natToCharsCore fuel n acc).map sanitizeChar
      = natToCharsCore fuel n (acc.map sanitizeChar) := by
  induction fuel with
  | zero => intro n acc; simp [natToCharsCore]
  | succ fuel ih =>
    intro n acc
    by_cases h : n < 10
    · simp [natToCharsCore, h, sanitizeChar_digitChar n h]
    · simp only [natToCharsCore, if_neg h]
      rw [ih]
      simp [sanitizeChar_digitChar (n % 10) (by omega)]

lemma map_sanitizeChar_natToChars (n : Nat) :
    (natToChars n).map sanitizeChar = natToChars n := by
  simpa using map_sanitizeChar_natToCharsCore (n + 1) n []

/-- The character list of a generated container name: a sanitized fixed
part followed by the untouched decimal digits of `buildNumber`. -/
lemma generateContainerName_data (project : Project) (prNumber b : Nat) :
    (generateContainerName project prNumber b).data
      = ("preview-p" ++ sliceTo project.id 8 ++ "-pr" ++ natStr prNumber
          ++ "-b").data.map sanitizeChar ++ natToChars b := by
  show ("preview-p" ++ sliceTo project.id 8 ++ "-pr" ++ natStr prNumber
      ++ "-b" ++ natStr b).data.map sanitizeChar = _
  rw [String.data_append ("preview-p" ++ sliceTo project.id 8 ++ "-pr"
      ++ natStr prNumber ++ "-b") (natStr b)]
  rw [List.map_append]
  rw [show (natStr b).data = natToChars b from rfl]
  rw [map_sanitizeChar_natToChars]

/-- Container names for a fixed project and PR number are injective in
the build number: the sanitized name ends in the untouched decimal
digits of `buildNumber`, and decimal rendering is injective. -/
lemma generateContainerName_inj (project : Project) (prNumber : Nat)
    {b1 b2 : Nat}
    (h : generateContainerName project prNumber b1
      = generateContainerName project prNumber b2) : b1 = b2 := by
  apply natToChars_injective
  have hd := congrArg String.data h
  rw [generateContainerName_data project prNumber b1,
    generateContainerName_data project prNumber b2] at hd
  exact List.append_cancel_left hd

/-! ### Helper lemmas: the port scan -/

lemma scanPorts_succ (resFst resSnd osFree : Nat → Bool) (start fuel : Nat) :
    scanPorts resFst resSnd osFree start (fuel + 1)
      = if scanPass resFst resSnd osFree start then some start
        else scanPorts resFst resSnd osFree (start + 1) fuel := by
  simp only [scanPorts, scanPass]
  by_cases h1 : resFst start <;> by_cases h2 : osFree start
    <;> by_cases h3 : resSnd start <;> simp [h1, h2, h3]

lemma scanPorts_some_iff (resFst resSnd osFree : Nat → Bool) :
    ∀ fuel start p, (scanPorts resFst resSnd osFree start fuel = some p ↔
      (start ≤ p ∧ p < start + fuel ∧ scanPass resFst resSnd osFree p = true ∧
        ∀ q, start ≤ q → q < p → scanPass resFst resSnd osFree q = false)) := by
  intro fuel
  induction fuel with
  | zero =>
    intro start p
    constructor
    · intro h; exact absurd h (by simp [scanPorts])
    · rintro ⟨h1, h2, -, -⟩; omega
  | succ fuel ih =>
    intro start p
    rw [scanPorts_succ]
    by_cases hp : scanPass resFst resSnd osFree start = true
    · rw [if_pos hp]
      constructor
      · intro h
        have he : start = p := by
          have := Option.some.inj h; omega
        refine ⟨by omega, by omega, he ▸ hp, ?_⟩
        intro q hq1 hq2; omega
      · rintro ⟨h1, h2, h3, h4⟩
        have he : p = start := by
          rcases Nat.lt_or_ge start p with hlt | hge
          · exact absurd (h4 start (Nat.le_refl _) hlt) (by simp [hp])
          · omega
        rw [he]
    · have hp2 : scanPass resFst resSnd osFree start = false := by
        revert hp; cases scanPass resFst resSnd osFree start <;> simp
      rw [if_neg hp, ih (start + 1) p]
      constructor
      · rintro ⟨h1, h2, h3, h4⟩
        refine ⟨by omega, by omega, h3, ?_⟩
        intro q hq1 hq2
        rcases Nat.eq_or_lt_of_le hq1 with he | hlt
        · rw [← he]; exact hp2
        · exact h4 q (by omega) hq2
      · rintro ⟨h1, h2, h3, h4⟩
        have hps : start ≠ p := by
          intro e
          rw [← e] at h3; rw [hp2] at h3; exact Bool.false_ne_true h3
        exact ⟨by omega, by omega, h3, fun q hq1 hq2 => h4 q (by omega) hq2⟩

lemma scanPorts_none_iff (resFst resSnd osFree : Nat → Bool) :
    ∀ fuel start, (scanPorts resFst resSnd osFree start fuel = none ↔
      ∀ q, start ≤ q → q < start + fuel →
        scanPass resFst resSnd osFree q = false) := by
  intro fuel
  induction fuel with
  | zero =>
    intro start
    constructor
    · intro _ q h1 h2; omega
    · intro _; simp [scanPorts]
  | succ fuel ih =>
    intro start
    rw [scanPorts_succ]
    by_cases hp : scanPass resFst resSnd osFree start = true
    · rw [if_pos hp]
      constructor
      · intro h; exact absurd h (by simp)
      · intro h
        exact absurd (h start (Nat.le_refl _) (by omega)) (by simp [hp])
    · have hp2 : scanPass resFst resSnd osFree start = false := by
        revert hp; cases scanPass resFst resSnd osFree start <;> simp
      rw [if_neg hp, ih (start + 1)]
      constructor
      · intro h q h1 h2
        rcases Nat.eq_or_lt_of_le h1 with he | hlt
        · rw [← he]; exact hp2
        · exact h q (by omega) (by omega)
      · intro h q h1 h2
        exact h q (by omega) (by omega)

lemma findAvailablePort_some_iff (db1 db2 : List Preview) (osFree : Nat → Bool)
    (minPort maxPort p : Nat) :
    findAvailablePort db1 db2 osFree minPort maxPort = some p ↔
      (minPort ≤ p ∧ p ≤ maxPort ∧ portPasses db1 db2 osFree p = true ∧
        ∀ q, minPort ≤ q → q < p → portPasses db1 db2 osFree q = false) := by
  unfold findAvailablePort
  rw [scanPorts_some_iff]
  constructor <;> rintro ⟨h1, h2, h3, h4⟩ <;> exact ⟨by omega, by omega, h3, h4⟩

lemma findAvailablePort_none_iff (db1 db2 : List Preview) (osFree : Nat → Bool)
    (minPort maxPort : Nat) :
    findAvailablePort db1 db2 osFree minPort maxPort = none ↔
      ∀ q, minPort ≤ q → q ≤ maxPort → portPasses db1 db2 osFree q = false := by
  unfold findAvailablePort
  rw [scanPorts_none_iff]
  constructor
  · intro h q h1 h2; exact h q (by omega) (by omega)
  · intro h q h1 h2; exact h q (by omega) (by omega)

/-! ### Helper lemmas: shapes of the build flow -/

lemma port_update_self (pv : Preview) (p : Nat) (h : pv.port = some p) :
    { pv with port := some p } = pv := by
  cases pv; simp_all

lemma assignPort_ok (env : BuildEnv) (pv pv2 : Preview) (p : Nat)
    (h : assignPort env pv = Except.ok (pv2, p)) :
    pv2 = { pv with port := some p } := by
  unfold assignPort at h
  cases hp : pv.port with
  | none =>
    simp only [hp] at h
    cases hf : findAvailablePort env.dbFst env.dbSnd env.osFree 5000 5999 with
    | none => simp [hf] at h
    | some q =>
      simp only [hf, Except.ok.injEq, Prod.mk.injEq] at h
      rw [← h.1, h.2]
  | some q =>
    simp only [hp] at h
    by_cases hf : env.osFree q
    · rw [if_pos hf] at h
      simp only [Except.ok.injEq, Prod.mk.injEq] at h
      rw [← h.1]
      exact (port_update_self pv p (by rw [hp, h.2])).symm
    · rw [if_neg hf] at h
      cases hff : findAvailablePort env.dbFst env.dbSnd env.osFree 4000 4999 with
      | none => simp [hff] at h
      | some r =>
        simp only [hff, Except.ok.injEq, Prod.mk.injEq] at h
        rw [← h.1, h.2]

lemma buildSteps_shape (env : BuildEnv) (imageName containerName repoPath : String)
    (pv3 : Preview) (ap : Nat) :
    (∃ logs msg, buildSteps env imageName containerName repoPath pv3 ap
        = (errorUpdate env pv3 logs msg, BuildResult.err msg))
    ∨ (∃ logs url, buildSteps env imageName containerName repoPath pv3 ap
        = ({ pv3 with
              status := Status.live, url := some url, buildLogs := logs,
              buildCompletedAt := some env.endTime }, BuildResult.ok url)) := by
  simp only [buildSteps]
  split
  · next logs1 msg _ => exact Or.inl ⟨logs1, msg, rfl⟩
  · next logs1 _ =>
    split
    · next logs3 msg _ => exact Or.inl ⟨logs3, msg, rfl⟩
    · next logs3 _ => exact Or.inr ⟨logs3, _, rfl⟩

/-- Exact outcome of the build steps per failure mode: a failing image
build persists the command line plus the captured build output; a
failing container run persists additionally the run command line plus
the captured run output; success persists the full log text. -/
lemma buildSteps_cases (env : BuildEnv) (imageName containerName repoPath : String)
    (pv3 : Preview) (ap : Nat) :
    (env.imageBuildExit ≠ 0
      ∧ buildSteps env imageName containerName repoPath pv3 ap
        = (errorUpdate env pv3 (buildCmdLine env imageName repoPath ++ env.imageBuildOut)
            ("Command failed with exit code " ++ natStr env.imageBuildExit),
          BuildResult.err ("Command failed with exit code " ++ natStr env.imageBuildExit)))
    ∨ (env.imageBuildExit = 0 ∧ env.runExit ≠ 0
      ∧ buildSteps env imageName containerName repoPath pv3 ap
        = (errorUpdate env pv3
            ((buildCmdLine env imageName repoPath ++ env.imageBuildOut
              ++ runCmdLine containerName ap imageName) ++ env.runOut)
            ("Command failed with exit code " ++ natStr env.runExit),
          BuildResult.err ("Command failed with exit code " ++ natStr env.runExit)))
    ∨ (env.imageBuildExit = 0 ∧ env.runExit = 0
      ∧ buildSteps env imageName containerName repoPath pv3 ap
        = ({ pv3 with
              status := Status.live,
              url := some ("http://localhost:" ++ natStr ap),
              buildLogs := ((buildCmdLine env imageName repoPath ++ env.imageBuildOut
                ++ runCmdLine containerName ap imageName) ++ env.runOut),
              buildCompletedAt := some env.endTime },
          BuildResult.ok ("http://localhost:" ++ natStr ap))) := by
  by_cases h1 : env.imageBuildExit = 0
  · by_cases h2 : env.runExit = 0
    · exact Or.inr (Or.inr ⟨h1, h2, by simp [buildSteps, runCmd, h1, h2]⟩)
    · exact Or.inr (Or.inl ⟨h1, h2, by simp [buildSteps, runCmd, h1, h2]⟩)
  · exact Or.inl ⟨h1, by simp [buildSteps, runCmd, h1]⟩

lemma buildPreview_shape (env : BuildEnv) (project : Project) (prNumber : Nat)
    (repoPath : String) (pv : Preview) :
    (∃ msg, assignPort env (markBuilding env pv) = Except.error msg ∧
      buildPreview env project prNumber repoPath pv
        = (errorUpdate env (markBuilding env pv) "" msg, BuildResult.err msg))
    ∨ (∃ p logs msg,
        assignPort env (markBuilding env pv)
          = Except.ok ({ markBuilding env pv with port := some p }, p) ∧
        buildPreview env project prNumber repoPath pv
          = (errorUpdate env (afterIncrement env project prNumber pv p) logs msg,
            BuildResult.err msg))
    ∨ (∃ p logs url,
        assignPort env (markBuilding env pv)
          = Except.ok ({ markBuilding env pv with port := some p }, p) ∧
        buildPreview env project prNumber repoPath pv
          = ({ afterIncrement env project prNumber pv p with
              status := Status.live, url := some url, buildLogs := logs,
              buildCompletedAt := some env.endTime }, BuildResult.ok url)) := by
  cases ha : assignPort env (markBuilding env pv) with
  | error msg =>
    exact Or.inl ⟨msg, rfl, by simp only [buildPreview, ha]⟩
  | ok pr2 =>
    obtain ⟨pv2, p⟩ := pr2
    have hpv2 : pv2 = { markBuilding env pv with port := some p } :=
      assignPort_ok env (markBuilding env pv) pv2 p ha
    subst hpv2
    rcases buildSteps_shape env (imageBaseName project prNumber)
        (generateContainerName project prNumber (nextBuildNumberOf (markBuilding env pv)))
        repoPath (afterIncrement env project prNumber pv p) p with
      ⟨l, m, h⟩ | ⟨l, u, h⟩
    · refine Or.inr (Or.inl ⟨p, l, m, rfl, ?_⟩)
      simp only [buildPreview, ha]
      exact h
    · refine Or.inr (Or.inr ⟨p, l, u, rfl, ?_⟩)
      simp only [buildPreview, ha]
      exact h

lemma upsertBuilding_status (prNumber : Nat) (ex : Option Preview) :
    (upsertBuilding prNumber ex).status = Status.building := by
  cases ex <;> rfl

/-! ### Claim C8 -/

/-- Claim C8 (confirmed): `generateContainerName` is a pure
deterministic function — an identical (project, prNumber, buildNumber)
triple yields the identical identifier, and for a fixed project and
prNumber any two different buildNumber values yield different
identifiers. -/
theorem generateContainerName_deterministic_and_injective
    (project : Project) (prNumber b1 b2 : Nat) (h : b1 ≠ b2) :
    generateContainerName project prNumber b1 = generateContainerName project prNumber b1
    ∧ generateContainerName project prNumber b1 ≠ generateContainerName project prNumber b2 :=
  ⟨rfl, fun he => h (generateContainerName_inj project prNumber he)⟩

/-- Witness for C8 at a concrete project, PR 7 and build numbers 1, 2. -/
theorem generateContainerName_deterministic_and_injective_witness :
    generateContainerName projW 7 1 = generateContainerName projW 7 1
    ∧ generateContainerName projW 7 1 ≠ generateContainerName projW 7 2 :=
  generateContainerName_deterministic_and_injective projW 7 1 2 (by decide)

/-! ### Claim C4 -/

/-- Claim C4 (confirmed): the allocator scans the inclusive range
ascending and returns the smallest port passing the store check, the OS
bind check and the repeated store check; it fails (PortExhausted) exactly
when no port of the range passes all three; the store check only counts
non-deleted previews; and in the spec's scenario — range [5000,5001]
with 5000 store-reserved by a live preview and 5001 OS-bound —
allocation fails. -/
theorem findAvailablePort_spec (db1 db2 : List Preview) (osFree : Nat → Bool)
    (minPort maxPort p : Nat) :
    (findAvailablePort db1 db2 osFree minPort maxPort = some p ↔
      (minPort ≤ p ∧ p ≤ maxPort ∧ portPasses db1 db2 osFree p = true ∧
        ∀ q, minPort ≤ q → q < p → portPasses db1 db2 osFree q = false))
    ∧ (findAvailablePort db1 db2 osFree minPort maxPort = none ↔
      ∀ q, minPort ≤ q → q ≤ maxPort → portPasses db1 db2 osFree q = false)
    ∧ portReservedInDB dbScenario 5000 = true
    ∧ portReservedInDB [pvDeleted] 5000 = false
    ∧ findAvailablePort dbScenario dbScenario osScenario 5000 5001 = none :=
  ⟨findAvailablePort_some_iff db1 db2 osFree minPort maxPort p,
    findAvailablePort_none_iff db1 db2 osFree minPort maxPort,
    by decide, by decide, by decide⟩

/-- Witness for C4: on an empty store with every port OS-free, the
allocator returns the lower end of the range. -/
theorem findAvailablePort_spec_witness :
    findAvailablePort [] [] (fun _ => true) 5000 5999 = some 5000 :=
  ((findAvailablePort_spec [] [] (fun _ => true) 5000 5999 5000).1).mpr
    ⟨by decide, by decide, by decide, fun q h1 h2 => absurd h2 (by omega)⟩

/-! ### Claim C2 -/

/-- Claim C2 (corrected): one `buildPreview` call increments the stored
buildNumber by exactly one precisely when the port step succeeds — so on
a successful build and on an image-build or container-run failure — but
leaves it unchanged when port assignment fails (and a clone failure
never reaches `buildPreview` at all). -/
theorem buildNumber_delta (env : BuildEnv) (project : Project) (prNumber : Nat)
    (repoPath : String) (pv : Preview) :
    (buildPreview env project prNumber repoPath pv).1.buildNumber
      = (if (assignPort env (markBuilding env pv)).isOk then pv.buildNumber + 1
        else pv.buildNumber) := by
  rcases buildPreview_shape env project prNumber repoPath pv with
    ⟨msg, ha, hb⟩ | ⟨p, l, m, ha, hb⟩ | ⟨p, l, u, ha, hb⟩ <;> rw [hb, ha] <;> rfl

set_option maxRecDepth 4000 in
/-- Claim C2 counterexample: with every port OS-bound, the rebuild
attempt fails at port allocation and the persisted buildNumber stays at
1 instead of increasing to 2. -/
theorem buildNumber_delta_counterexample :
    (buildPreview envNoPorts projW 42 "/tmp/repo" (createdPreview 42)).2
      = BuildResult.err portExhaustedMsg
    ∧ (buildPreview envNoPorts projW 42 "/tmp/repo" (createdPreview 42)).1.buildNumber
      = (createdPreview 42).buildNumber
    ∧ (createdPreview 42).buildNumber ≠ (createdPreview 42).buildNumber + 1 :=
  ⟨rfl, rfl, by omega⟩

/-! ### Claim C7 -/

/-- Claim C7 (corrected): a build attempt derives the container name
from the PRE-increment buildNumber, not from the incremented value: when
the port step succeeds, the persisted name is generated from the old
counter and the counter becomes old + 1 — so attempts that reach the
increment use pairwise distinct identifiers — but when the port step
fails, neither the name nor the counter changes, and the following
attempt derives the same identifier again. -/
theorem containerName_attempt (env : BuildEnv) (project : Project) (prNumber : Nat)
    (repoPath : String) (pv : Preview) (h1 : 1 ≤ pv.buildNumber) :
    ((∃ r, assignPort env (markBuilding env pv) = Except.ok r) →
      (buildPreview env project prNumber repoPath pv).1.containerName
        = some (generateContainerName project prNumber pv.buildNumber)
      ∧ (buildPreview env project prNumber repoPath pv).1.buildNumber = pv.buildNumber + 1)
    ∧ ((∃ msg, assignPort env (markBuilding env pv) = Except.error msg) →
      (buildPreview env project prNumber repoPath pv).1.containerName = pv.containerName
      ∧ (buildPreview env project prNumber repoPath pv).1.buildNumber = pv.buildNumber)
    ∧ (∀ m n, m ≠ n →
      generateContainerName project prNumber m ≠ generateContainerName project prNumber n) := by
  have hn : nextBuildNumberOf pv = pv.buildNumber := by
    unfold nextBuildNumberOf; rw [if_neg (by omega)]
  refine ⟨?_, ?_, fun m n hmn he => hmn (generateContainerName_inj project prNumber he)⟩
  · rintro ⟨r, hr⟩
    rcases buildPreview_shape env project prNumber repoPath pv with
      ⟨msg, ha, hb⟩ | ⟨p, l, m, ha, hb⟩ | ⟨p, l, u, ha, hb⟩
    · rw [ha] at hr; exact Except.noConfusion hr
    · constructor
      · have hc : (buildPreview env project prNumber repoPath pv).1.containerName
            = some (generateContainerName project prNumber (nextBuildNumberOf pv)) := by
          rw [hb]; rfl
        rw [hn] at hc; exact hc
      · rw [hb]; rfl
    · constructor
      · have hc : (buildPreview env project prNumber repoPath pv).1.containerName
            = some (generateContainerName project prNumber (nextBuildNumberOf pv)) := by
          rw [hb]; rfl
        rw [hn] at hc; exact hc
      · rw [hb]; rfl
  · rintro ⟨msg, hm⟩
    rcases buildPreview_shape env project prNumber repoPath pv with
      ⟨msg2, ha, hb⟩ | ⟨p, l, m, ha, hb⟩ | ⟨p, l, u, ha, hb⟩
    · rw [hb]; exact ⟨rfl, rfl⟩
    · rw [ha] at hm; exact Except.noConfusion hm
    · rw [ha] at hm; exact Except.noConfusion hm

/-- Witness for C7: a first build on a fresh preview (buildNumber 1)
persists the name generated from 1 and the counter 2. -/
theorem containerName_attempt_witness :
    (buildPreview envAllOk projW 42 "/tmp/repo" (createdPreview 42)).1.containerName
      = some (generateContainerName projW 42 1)
    ∧ (buildPreview envAllOk projW 42 "/tmp/repo" (createdPreview 42)).1.buildNumber = 2 := by
  have h := (containerName_attempt envAllOk projW 42 "/tmp/repo" (createdPreview 42)
      (by decide)).1
    ⟨({ markBuilding envAllOk (createdPreview 42) with port := some 5000 }, 5000), rfl⟩
  exact ⟨h.1, h.2⟩

/-- Claim C7 counterexample: a successful first attempt persists the
name derived from the old counter value 1 while the incremented counter
is 2; the name derived from the new value differs. -/
theorem containerName_newValue_counterexample :
    (buildPreview envAllOk projW 5 "/tmp/repo" (createdPreview 5)).1.containerName
      = some (generateContainerName projW 5 1)
    ∧ (buildPreview envAllOk projW 5 "/tmp/repo" (createdPreview 5)).1.buildNumber = 2
    ∧ generateContainerName projW 5 1 ≠ generateContainerName projW 5 2 :=
  ⟨rfl, rfl, by decide⟩

/-! ### Claim C10 -/

/-- Claim C10 (confirmed): after every successful `buildPreview` call,
the persisted buildNumber is exactly one greater than the build number
from which the persisted containerName was generated (the pre-increment
counter value). -/
theorem buildNumber_succ_of_embedded (env : BuildEnv) (project : Project)
    (prNumber : Nat) (repoPath : String) (pv : Preview) (url : String)
    (h1 : 1 ≤ pv.buildNumber)
    (h2 : (buildPreview env project prNumber repoPath pv).2 = BuildResult.ok url) :
    (buildPreview env project prNumber repoPath pv).1.containerName
      = some (generateContainerName project prNumber pv.buildNumber)
    ∧ (buildPreview env project prNumber repoPath pv).1.buildNumber
      = pv.buildNumber + 1 := by
  have hn : nextBuildNumberOf pv = pv.buildNumber := by
    unfold nextBuildNumberOf; rw [if_neg (by omega)]
  rcases buildPreview_shape env project prNumber repoPath pv with
    ⟨msg, ha, hb⟩ | ⟨p, l, m, ha, hb⟩ | ⟨p, l, u, ha, hb⟩
  · rw [hb] at h2; simp at h2
  · rw [hb] at h2; simp at h2
  · constructor
    · have hc : (buildPreview env project prNumber repoPath pv).1.containerName
          = some (generateContainerName project prNumber (nextBuildNumberOf pv)) := by
        rw [hb]; rfl
      rw [hn] at hc; exact hc
    · rw [hb]; rfl

/-- Witness for C10: a successful first build persists containerName
generated from buildNumber 1 and counter 2. -/
theorem buildNumber_succ_of_embedded_witness :
    (buildPreview envAllOk projW 9 "/tmp/repo" (createdPreview 9)).1.containerName
      = some (generateContainerName projW 9 (createdPreview 9).buildNumber)
    ∧ (buildPreview envAllOk projW 9 "/tmp/repo" (createdPreview 9)).1.buildNumber
      = (createdPreview 9).buildNumber + 1 :=
  buildNumber_succ_of_embedded envAllOk projW 9 "/tmp/repo" (createdPreview 9)
    "http://localhost:5000" (by decide) rfl

/-! ### Claim C1 -/

/-- Claim C1 (corrected): a build that ends live always persists a url
and a port; but the deleted transitions do NOT clear everything:
PR-close handling sets `status: deleted` and clears only `url`, leaving
`port` and `containerName` untouched, and the explicit delete route
clears `url` and `containerName` but leaves `port` untouched. -/
theorem status_field_invariants (env : BuildEnv) (project : Project)
    (prNumber : Nat) (repoPath : String) (pv : Preview) (renv : RouteEnv)
    (proj2 : Project) (emitOk : Bool) :
    ((buildPreview env project prNumber repoPath pv).1.status = Status.live →
      (buildPreview env project prNumber repoPath pv).1.url ≠ none
      ∧ (buildPreview env project prNumber repoPath pv).1.port ≠ none)
    ∧ (handlePRClosed emitOk (some pv)).1
        = some { pv with status := Status.deleted, url := none }
    ∧ (deleteRoute renv (some (pv, proj2)) proj2.userId).1
        = some { pv with
            status := Status.deleted, url := none,
            containerName := none, buildCompletedAt := some renv.deleteTime } := by
  refine ⟨?_, ?_, ?_⟩
  · intro hl
    rcases buildPreview_shape env project prNumber repoPath pv with
      ⟨msg, ha, hb⟩ | ⟨p, l, m, ha, hb⟩ | ⟨p, l, u, ha, hb⟩
    · rw [hb] at hl; simp [errorUpdate] at hl
    · rw [hb] at hl; simp [errorUpdate] at hl
    · rw [hb]
      exact ⟨fun hx => Option.noConfusion hx, fun hx => Option.noConfusion hx⟩
  · cases emitOk <;> rfl
  · simp only [deleteRoute]
    rw [if_neg (fun hne => hne rfl)]
    cases he : emitEvent renv.build.emitOk <;> rfl

/-- Claim C1 counterexample: PR-close on a live preview holding port
5000 leaves the port and the container name set while status is
deleted, and the explicit delete route also leaves the port set. -/
theorem deleted_keeps_port_counterexample :
    (handlePRClosed true (some pvLive)).1.map Preview.status = some Status.deleted
    ∧ (handlePRClosed true (some pvLive)).1.map Preview.port = some (some 5000)
    ∧ (handlePRClosed true (some pvLive)).1.map Preview.containerName
        = some (some "preview-pckv123ab-pr7-b1")
    ∧ (deleteRoute routeAllOk (some (pvLive, projW)) projW.userId).1.map Preview.port
        = some (some 5000) :=
  ⟨rfl, rfl, rfl, rfl⟩

/-- Witness for C1: a concrete successful build ends live with url and
port present. -/
theorem status_field_invariants_witness :
    (buildPreview envAllOk projW 11 "/tmp/repo" (createdPreview 11)).1.url ≠ none
    ∧ (buildPreview envAllOk projW 11 "/tmp/repo" (createdPreview 11)).1.port ≠ none :=
  (status_field_invariants envAllOk projW 11 "/tmp/repo" (createdPreview 11)
    routeAllOk projW true).1 rfl

/-! ### Claim C3 -/

/-- Claim C3 (corrected): any failure inside `buildPreview` (port
allocation, image build, container run) ends in the error update —
status error, port cleared, buildCompletedAt set, and buildLogs equal to
exactly the logs accumulated up to that failure with the failure detail
appended: nothing yet on a port failure, the build command line plus the
captured build output on an image-build failure, and additionally the
run command line plus the captured run output on a container-run
failure. But a clone failure, which the claim also covers, happens
before `buildPreview` and performs no error transition: the preview
stays in building. -/
theorem error_transition_effects (env : BuildEnv) (project : Project)
    (prNumber : Nat) (repoPath : String) (pv : Preview) (msg : String)
    (h : (buildPreview env project prNumber repoPath pv).2 = BuildResult.err msg) :
    (buildPreview env project prNumber repoPath pv).1.status = Status.error
    ∧ (buildPreview env project prNumber repoPath pv).1.port = none
    ∧ (buildPreview env project prNumber repoPath pv).1.buildCompletedAt = some env.endTime
    ∧ ((assignPort env (markBuilding env pv) = Except.error msg
        ∧ (buildPreview env project prNumber repoPath pv).1.buildLogs
          = "" ++ "\n\nERROR:\n" ++ msg)
      ∨ (∃ p, assignPort env (markBuilding env pv)
            = Except.ok ({ markBuilding env pv with port := some p }, p)
        ∧ env.imageBuildExit ≠ 0
        ∧ msg = "Command failed with exit code " ++ natStr env.imageBuildExit
        ∧ (buildPreview env project prNumber repoPath pv).1.buildLogs
          = (buildCmdLine env (imageBaseName project prNumber) repoPath
              ++ env.imageBuildOut) ++ "\n\nERROR:\n" ++ msg)
      ∨ (∃ p, assignPort env (markBuilding env pv)
            = Except.ok ({ markBuilding env pv with port := some p }, p)
        ∧ env.imageBuildExit = 0 ∧ env.runExit ≠ 0
        ∧ msg = "Command failed with exit code " ++ natStr env.runExit
        ∧ (buildPreview env project prNumber repoPath pv).1.buildLogs
          = ((buildCmdLine env (imageBaseName project prNumber) repoPath
              ++ env.imageBuildOut
              ++ runCmdLine (generateContainerName project prNumber (nextBuildNumberOf pv))
                  p (imageBaseName project prNumber)) ++ env.runOut)
            ++ "\n\nERROR:\n" ++ msg))
    ∧ (∀ (senv : SyncEnv) (proj2 : Project) (pr2 : Nat) (ex : Option Preview),
        senv.cloneOk = false → senv.build.emitOk = true →
        (handlePROpenOrSync senv proj2 pr2 ex).1.status = Status.building
        ∧ (handlePROpenOrSync senv proj2 pr2 ex).2 = Except.error "CloneFailed") := by
  have hclone : ∀ (senv : SyncEnv) (proj2 : Project) (pr2 : Nat) (ex : Option Preview),
      senv.cloneOk = false → senv.build.emitOk = true →
      (handlePROpenOrSync senv proj2 pr2 ex).1.status = Status.building
      ∧ (handlePROpenOrSync senv proj2 pr2 ex).2 = Except.error "CloneFailed" := by
    intro senv proj2 pr2 ex hc he
    simp only [handlePROpenOrSync, emitEvent, he, hc, if_true, Bool.not_false]
    exact ⟨upsertBuilding_status pr2 ex, trivial⟩
  cases ha : assignPort env (markBuilding env pv) with
  | error m0 =>
    have hb : buildPreview env project prNumber repoPath pv
        = (errorUpdate env (markBuilding env pv) "" m0, BuildResult.err m0) := by
      simp only [buildPreview, ha]
    rw [hb] at h; simp only [BuildResult.err.injEq] at h; subst h
    exact ⟨by rw [hb]; rfl, by rw [hb]; rfl, by rw [hb]; rfl,
      Or.inl ⟨rfl, by rw [hb]; rfl⟩, hclone⟩
  | ok pr2 =>
    obtain ⟨pv2, p⟩ := pr2
    have hpv2 : pv2 = { markBuilding env pv with port := some p } :=
      assignPort_ok env (markBuilding env pv) pv2 p ha
    subst hpv2
    have hb : buildPreview env project prNumber repoPath pv
        = buildSteps env (imageBaseName project prNumber)
            (generateContainerName project prNumber (nextBuildNumberOf (markBuilding env pv)))
            repoPath (afterIncrement env project prNumber pv p) p := by
      simp only [buildPreview, ha]; rfl
    rcases buildSteps_cases env (imageBaseName project prNumber)
        (generateContainerName project prNumber (nextBuildNumberOf (markBuilding env pv)))
        repoPath (afterIncrement env project prNumber pv p) p with
      ⟨h1, hc⟩ | ⟨h1, h2, hc⟩ | ⟨h1, h2, hc⟩
    · rw [hc] at hb
      rw [hb] at h; simp only [BuildResult.err.injEq] at h; subst h
      exact ⟨by rw [hb]; rfl, by rw [hb]; rfl, by rw [hb]; rfl,
        Or.inr (Or.inl ⟨p, rfl, h1, rfl, by rw [hb]; rfl⟩), hclone⟩
    · rw [hc] at hb
      rw [hb] at h; simp only [BuildResult.err.injEq] at h; subst h
      exact ⟨by rw [hb]; rfl, by rw [hb]; rfl, by rw [hb]; rfl,
        Or.inr (Or.inr ⟨p, rfl, h1, h2, rfl, by rw [hb]; rfl⟩), hclone⟩
    · rw [hc] at hb
      rw [hb] at h; simp at h

/-- Claim C3 counterexample: a clone failure leaves the preview in
status building, not error. -/
theorem clone_failure_counterexample :
    (handlePROpenOrSync syncCloneFails projW 3 (some pvLive)).1.status = Status.building
    ∧ (handlePROpenOrSync syncCloneFails projW 3 (some pvLive)).2
        = Except.error "CloneFailed"
    ∧ Status.building ≠ Status.error :=
  ⟨rfl, rfl, by decide⟩

/-- Witness for C3: a failing image build takes the error transition
with status error and the port cleared. -/
theorem error_transition_effects_witness :
    (buildPreview envBuildFails projW 13 "/tmp/repo" (createdPreview 13)).1.status
      = Status.error
    ∧ (buildPreview envBuildFails projW 13 "/tmp/repo" (createdPreview 13)).1.port
      = none := by
  have h := error_transition_effects envBuildFails projW 13 "/tmp/repo"
    (createdPreview 13) ("Command failed with exit code " ++ natStr 1) rfl
  exact ⟨h.1, h.2.1⟩

/-! ### Claim C5 -/

/-- Claim C5 (corrected): deleted is NOT terminal — neither the rebuild
route nor PR-open/sync handling checks for the deleted status: the
upsert moves any existing preview (deleted included) back to building,
and an authorized rebuild of a deleted preview proceeds and never ends
in deleted. -/
theorem deleted_not_terminal (renv : RouteEnv) (proj : Project) (pv : Preview)
    (pr : Nat) (h : pv.status = Status.deleted) :
    (upsertBuilding pr (some pv)).status = Status.building
    ∧ (rebuildRoute renv (some (pv, proj)) proj.userId).1.map Preview.status
        ≠ some Status.deleted := by
  refine ⟨rfl, ?_⟩
  simp only [rebuildRoute]
  rw [if_neg (fun hne => hne rfl)]
  cases he : emitEvent renv.build.emitOk with
  | error e => simp
  | ok v =>
    cases hc : renv.cloneOk with
    | false => simp
    | true =>
      simp only [Bool.not_true, Bool.false_eq_true, if_false]
      rcases buildPreview_shape renv.build proj pv.prNumber renv.repoPath
          { pv with
            status := Status.building, url := none,
            buildStartedAt := some renv.routeStartTime, buildCompletedAt := none } with
        ⟨m, ha, hb⟩ | ⟨p, l, m, ha, hb⟩ | ⟨p, l, u, ha, hb⟩ <;>
        rw [hb] <;> simp

/-- Claim C5 counterexample: a deleted preview is resurrected — the
rebuild route takes it to live, and a PR-open/sync event also rebuilds
it to live. -/
theorem rebuild_resurrects_deleted :
    pvDeleted.status = Status.deleted
    ∧ (rebuildRoute routeAllOk (some (pvDeleted, projW)) projW.userId).1.map Preview.status
        = some Status.live
    ∧ (handlePROpenOrSync syncAllOk projW pvDeleted.prNumber (some pvDeleted)).1.status
        = Status.live :=
  ⟨rfl, rfl, rfl⟩

/-- Witness for C5 at a concrete deleted preview. -/
theorem deleted_not_terminal_witness :
    (upsertBuilding 7 (some pvDeleted)).status = Status.building
    ∧ (rebuildRoute routeAllOk (some (pvDeleted, projW)) projW.userId).1.map Preview.status
        ≠ some Status.deleted :=
  deleted_not_terminal routeAllOk projW pvDeleted 7 rfl

/-! ### Claim C6 -/

/-- Claim C6 (corrected): a rebuild whose record holds a port first
revalidates it with the OS bind check and reuses it when free; when the
held port is not free it falls back to a fresh allocation — but from
range [4000, 4999], NOT the range [5000, 5999] used by an initial
allocation. -/
theorem port_reuse_and_fallback (env : BuildEnv) (pv : Preview) (p : Nat) :
    (pv.port = some p → env.osFree p = true → assignPort env pv = Except.ok (pv, p))
    ∧ (pv.port = some p → env.osFree p = false →
      ((findAvailablePort env.dbFst env.dbSnd env.osFree 4000 4999 = none →
          assignPort env pv = Except.error portExhaustedMsg)
        ∧ (∀ q, findAvailablePort env.dbFst env.dbSnd env.osFree 4000 4999 = some q →
          assignPort env pv = Except.ok ({ pv with port := some q }, q))))
    ∧ (pv.port = none →
      ((findAvailablePort env.dbFst env.dbSnd env.osFree 5000 5999 = none →
          assignPort env pv = Except.error portExhaustedMsg)
        ∧ (∀ q, findAvailablePort env.dbFst env.dbSnd env.osFree 5000 5999 = some q →
          assignPort env pv = Except.ok ({ pv with port := some q }, q)))) := by
  refine ⟨?_, ?_, ?_⟩
  · intro hp hf
    simp only [assignPort, hp]
    rw [if_pos hf]
  · intro hp hf
    have hf2 : ¬(env.osFree p = true) := by rw [hf]; exact Bool.false_ne_true
    constructor
    · intro hnone
      simp only [assignPort, hp, hnone]
      rw [if_neg hf2]
    · intro q hq
      simp only [assignPort, hp, hq]
      rw [if_neg hf2]
  · intro hp
    constructor
    · intro hnone; simp only [assignPort, hp, hnone]
    · intro q hq; simp only [assignPort, hp, hq]

/-- Claim C6 counterexample: with held port 6000 OS-bound and every
other port free, the fallback allocation returns 4000 — outside the
initial range [5000, 5999] — while a fresh allocation under the same
world returns 5000. -/
theorem fallback_range_counterexample :
    assignPort envPort6000Bound pvHeld6000
      = Except.ok ({ pvHeld6000 with port := some 4000 }, 4000)
    ∧ assignPort envPort6000Bound { pvHeld6000 with port := none }
      = Except.ok ({ pvHeld6000 with port := some 5000 }, 5000)
    ∧ ¬(5000 ≤ 4000) :=
  ⟨rfl, rfl, by omega⟩

/-- Witness for C6: a held, still-free port is reused unchanged. -/
theorem port_reuse_and_fallback_witness :
    assignPort envAllOk pvLive = Except.ok (pvLive, 5000) :=
  (port_reuse_and_fallback envAllOk pvLive 5000).1 rfl rfl

/-! ### Claim C9 -/

/-- Claim C9 (corrected): inside `buildPreview` every emission is
guarded, so its persisted state and result do not depend on whether the
emitter throws; but `handlePROpenOrSync` emits unguarded right after its
upsert, so a throwing emitter makes the whole operation fail there. -/
theorem emission_isolation (env : BuildEnv) (b : Bool) (project : Project)
    (prNumber : Nat) (repoPath : String) (pv : Preview) (senv : SyncEnv)
    (proj2 : Project) (pr2 : Nat) (ex : Option Preview)
    (h : senv.build.emitOk = false) :
    buildPreview { env with emitOk := b } project prNumber repoPath pv
      = buildPreview env project prNumber repoPath pv
    ∧ (handlePROpenOrSync senv proj2 pr2 ex).1 = upsertBuilding pr2 ex
    ∧ (handlePROpenOrSync senv proj2 pr2 ex).2 = Except.error "emit failed" := by
  refine ⟨rfl, ?_, ?_⟩ <;> simp [handlePROpenOrSync, emitEvent, h]

/-- Claim C9 counterexample: two worlds identical except that the
emitter throws — the PR-open/sync operation succeeds and ends live in
one, fails with the emitter's error and stays in building in the
other. -/
theorem emit_failure_changes_outcome :
    (handlePROpenOrSync syncAllOk projW 3 none).2 = Except.ok ()
    ∧ (handlePROpenOrSync syncEmitThrows projW 3 none).2 = Except.error "emit failed"
    ∧ (handlePROpenOrSync syncAllOk projW 3 none).1.status = Status.live
    ∧ (handlePROpenOrSync syncEmitThrows projW 3 none).1.status = Status.building :=
  ⟨rfl, rfl, rfl, rfl⟩

/-- Witness for C9: `buildPreview` is emitter-independent at a concrete
input, and a throwing emitter fails the PR handler. -/
theorem emission_isolation_witness :
    buildPreview envEmitThrows projW 21 "/tmp/repo" (createdPreview 21)
      = buildPreview envAllOk projW 21 "/tmp/repo" (createdPreview 21)
    ∧ (handlePROpenOrSync syncEmitThrows projW 21 none).2
      = Except.error "emit failed" := by
  have h := emission_isolation envAllOk false projW 21 "/tmp/repo" (createdPreview 21)
    syncEmitThrows projW 21 none rfl
  exact ⟨h.1, h.2.2⟩

end PreviewFlow
